import Mathlib

/-!
Verification development for the xweb HTTP composition library.

This file gives a shallow embedding of the core of the repository:
the demultiplexing engine (`demux.go`: `getDefault`,
`PathPrefixDemuxFactory.Build`, `IsHandledDemuxFactory.Build`), the
default-http-handler provider chain (`instance.go`:
`DefaultHttpHandlerProviderImpl.GetDefaultHttpHandler`, `handler404`),
and the server request-wrapping pipeline and start loop (`server.go`:
`wrapHandler`, `wrapSetCtrlAddressHeader`, `wrapPanicRecovery`,
`Server.Start`).

Modelling conventions:
* Go strings are Lean `String`s; `strings.HasPrefix` is modelled on the
  character sequence (`List.isPrefixOf` on `String.data`), which agrees
  with Go's byte-level prefix on the ASCII root paths the code handles.
* An `http.ResponseWriter`'s observable state is a `Response` record
  (status, accumulated body, headers).  `WriteHeader` sets the status,
  `Write` appends to the body, `Header().Set` replaces a header key.
* An `ApiHandler` (a Go interface whose definition lives outside the
  demux sources) is a record of the capabilities the embedded code
  uses: binding name, concrete type name (what `%T` prints), root path,
  the `IsHandler` predicate and the `ServeHTTP` effect, which is
  modelled as the status/body/headers the handler writes for a request.
  The optional `DefaultApiHandler` capability (`IsDefault`) is an
  `Option Bool`: `none` models a handler that does not implement the
  interface, `some b` one whose `IsDefault()` returns `b`.
* Storing the selected handler on the request context under
  `HandlerContextKey` is modelled by the `attached` field of
  `DispatchResult`.
* Go panics are modelled with `Except`: a fallible handler returns
  `.error (panicValue, writerStateAtPanic)` when its execution panics.
-/

namespace Xweb

/-- A request as the demux code observes it: its URL path. -/
structure Request where
  urlPath : String
deriving Repr, DecidableEq

/-- Observable state of an `http.ResponseWriter`. -/
structure Response where
  status : Nat
  body : String
  headers : List (String × String)
deriving Repr, DecidableEq

/-- `http.Header.Set`: replace any existing value for the key. -/
def headerSet (hs : List (String × String)) (k v : String) : List (String × String) :=
  hs.filter (fun p => p.1 ≠ k) ++ [(k, v)]

/-- Look up a header value (the single value `Set` semantics keeps). -/
def headerGet (hs : List (String × String)) (k : String) : Option String :=
  (hs.find? (fun p => p.1 = k)).map (fun p => p.2)

/-- What one `ServeHTTP` call writes to the response writer. -/
structure HandlerOutput where
  status : Nat
  body : String
  setHeaders : List (String × String)
deriving Repr, DecidableEq

/-- Apply a handler's writes to the current writer state. -/
def applyOutput (w : Response) (o : HandlerOutput) : Response :=
  { status := o.status
    body := w.body ++ o.body
    headers := o.setHeaders.foldl (fun hs kv => headerSet hs kv.1 kv.2) w.headers }

/-- An `ApiHandler` as used by the demux code: binding name, concrete
type name (as printed by `%T`), root path, the `IsHandler` predicate and
the `ServeHTTP` effect.  `declaresDefault = some b` models a handler
that also implements `DefaultApiHandler` with `IsDefault() = b`. -/
structure ApiHandler where
  binding : String
  typeName : String
  rootPath : String
  isHandlerOn : Request → Bool
  declaresDefault : Option Bool
  serve : Request → HandlerOutput

/-- `strings.HasPrefix(s, p)` from Go's standard library: does `s`
start with `p`? -/
def hasPrefix (s p : String) : Bool :=
  p.data.isPrefixOf s.data

/-- `strings.Join(names, sep)` from Go's standard library. -/
def strJoin (sep : String) : List String → String
  | [] => ""
  | [s] => s
  | s :: rest => s ++ sep ++ strJoin sep rest

/-- The type-assertion-plus-`IsDefault()` test from `getDefault`'s scan. -/
def isSelfDeclaredDefault (h : ApiHandler) : Bool :=
  match h.declaresDefault with
  | some b => b
  | none => false

/-- The `"[Binding: %s, Type: %T]"` string built for each conflicting
default handler in `getDefault`. -/
def defaultHandlerName (h : ApiHandler) : String :=
  "[Binding: " ++ h.binding ++ ", Type: " ++ h.typeName ++ "]"

/-- The full error message `getDefault` produces for multiple defaults. -/
def tooManyDefaultsMsg (defaults : List ApiHandler) : String :=
  "too many default handlers found, ensure that only one handler is marked as the default: "
    ++ strJoin "," (defaults.map defaultHandlerName)

/-- `getDefault` from demux.go: resolve which handler acts as the
default. Empty input errors; zero self-declared defaults picks the last
handler; exactly one is used; more than one is an error naming all of
them. -/
def getDefault (handlers : List ApiHandler) : Except String ApiHandler :=
  match handlers with
  | [] => Except.error "no handlers provided"
  | h0 :: rest =>
    match (h0 :: rest).filter isSelfDeclaredDefault with
    | [] => Except.ok ((h0 :: rest).getLast (List.cons_ne_nil h0 rest))
    | [d] => Except.ok d
    | d1 :: d2 :: ds => Except.error (tooManyDefaultsMsg (d1 :: d2 :: ds))

/-- The duplicate-root-path error message from `PathPrefixDemuxFactory.Build`.
`newBinding` is the binding of the handler being inserted, `existingBinding`
that of the handler already in the map. -/
def duplicateRootMsg (path newBinding existingBinding : String) : String :=
  "duplicate root path [" ++ path ++ "] detected for both bindings ["
    ++ newBinding ++ "] and [" ++ existingBinding ++ "]"

/-- Go map lookup `handlerMap[rootPath]`, with the map represented as the
association list of inserted entries (keys are unique by construction). -/
def assocFind (m : List (String × ApiHandler)) (k : String) : Option ApiHandler :=
  (m.find? (fun p => p.1 = k)).map (fun p => p.2)

/-- The `handlerMap` construction loop of `PathPrefixDemuxFactory.Build`:
insert each handler under its root path, failing on a key collision with
the error naming the colliding and the existing binding. -/
def buildHandlerMap (handlers : List ApiHandler) (acc : List (String × ApiHandler)) :
    Except String (List (String × ApiHandler)) :=
  match handlers with
  | [] => Except.ok acc
  | h :: rest =>
    match assocFind acc h.rootPath with
    | some existing => Except.error (duplicateRootMsg h.rootPath h.binding existing.binding)
    | none => buildHandlerMap rest (acc ++ [(h.rootPath, h)])

/-- The dispatcher state captured by the closure a demux `Build` returns:
the ordered handler list and the resolved default handler.  The closure
tests `defaultApi != nil`, so the default is kept as an `Option`. -/
structure BuiltDemux where
  handlers : List ApiHandler
  defaultApi : Option ApiHandler

/-- `PathPrefixDemuxFactory.Build`: resolve the default via `getDefault`,
then detect duplicate root paths, then return the dispatcher closure's
captured state. -/
def PathPrefixBuild (handlers : List ApiHandler) : Except String BuiltDemux :=
  match getDefault handlers with
  | Except.error e => Except.error e
  | Except.ok d =>
    match buildHandlerMap handlers [] with
    | Except.error e => Except.error e
    | Except.ok _ => Except.ok { handlers := handlers, defaultApi := some d }

/-- `IsHandledDemuxFactory.Build`: resolve the default via `getDefault`
and return the dispatcher closure's captured state. -/
def IsHandledBuild (handlers : List ApiHandler) : Except String BuiltDemux :=
  match getDefault handlers with
  | Except.error e => Except.error e
  | Except.ok d => Except.ok { handlers := handlers, defaultApi := some d }

/-- Result of one dispatch: the final writer state and the `ApiHandler`
(if any) that was stored on the request context under
`HandlerContextKey` and delegated to. -/
structure DispatchResult where
  response : Response
  attached : Option ApiHandler

/-- The `strings.HasPrefix(request.URL.Path, handler.RootPath())` test of
the path-prefix dispatcher. -/
def pathPrefixMatch (req : Request) (h : ApiHandler) : Bool :=
  hasPrefix req.urlPath h.rootPath

/-- The `writer.WriteHeader(http.StatusNotFound); writer.Write([]byte{})`
terminal branch shared by both dispatcher closures. -/
def notFoundWrite (w : Response) : Response :=
  { w with status := 404, body := w.body ++ "" }

/-- The request-time closure built by `PathPrefixDemuxFactory.Build`:
first handler (in declared order) whose root path is a prefix of the
request path wins; otherwise the resolved default; otherwise the
factory's configurable fallback handler (`factory.GetDefaultHttpHandler()`,
passed here as `fallback`); otherwise a 404 with an empty body. -/
def pathPrefixServe (handlers : List ApiHandler) (defaultApi : Option ApiHandler)
    (fallback : Option (Request → HandlerOutput)) (w : Response) (req : Request) :
    DispatchResult :=
  match handlers.find? (pathPrefixMatch req) with
  | some h => { response := applyOutput w (h.serve req), attached := some h }
  | none =>
    match defaultApi with
    | some d => { response := applyOutput w (d.serve req), attached := some d }
    | none =>
      match fallback with
      | some f => { response := applyOutput w (f req), attached := none }
      | none => { response := notFoundWrite w, attached := none }

/-- The request-time closure built by `IsHandledDemuxFactory.Build`:
identical to the prefix closure except selection delegates to the
handler's `IsHandler(request)` predicate. -/
def isHandledServe (handlers : List ApiHandler) (defaultApi : Option ApiHandler)
    (fallback : Option (Request → HandlerOutput)) (w : Response) (req : Request) :
    DispatchResult :=
  match handlers.find? (fun h => h.isHandlerOn req) with
  | some h => { response := applyOutput w (h.serve req), attached := some h }
  | none =>
    match defaultApi with
    | some d => { response := applyOutput w (d.serve req), attached := some d }
    | none =>
      match fallback with
      | some f => { response := applyOutput w (f req), attached := none }
      | none => { response := notFoundWrite w, attached := none }

/-! ### The default-http-handler provider chain (`instance.go`) -/

/-- A `DefaultHttpHandlerProviderImpl`: its own optional handler and an
optional parent provider.  Go http handlers at this level are modelled
as `Request → HandlerOutput` effects. -/
inductive Provider where
  | mk (httpHandler : Option (Request → HandlerOutput)) (parent : Option Provider)

/-- `handler404` from instance.go: 404 status, empty body. -/
def handler404 : Request → HandlerOutput :=
  fun _ => { status := 404, body := "", setHeaders := [] }

/-- `DefaultHttpHandlerProviderImpl.GetDefaultHttpHandler`: if no own
handler and a parent exists, consult the parent, substituting the
built-in `handler404` when the parent chain yields nothing; otherwise
return the own handler (which may be absent). -/
def getDefaultHttpHandler : Provider → Option (Request → HandlerOutput)
  | Provider.mk httpHandler parent =>
    match httpHandler, parent with
    | none, some p =>
      match getDefaultHttpHandler p with
      | none => some handler404
      | some h => some h
    | h, _ => h

/-! ### The server request pipeline and start loop (`server.go`) -/

/-- The fixed control-address header name, `ZitiCtrlAddressHeader`. -/
def ZitiCtrlAddressHeader : String := "ziti-ctrl-address"

/-- A handler whose execution may raise an unrecovered fault (Go panic).
On a panic the result carries the panic value and the writer state at
the moment of the panic. -/
def FHandler : Type :=
  Response → Request → Except (String × Response) Response

/-- A handler that never panics, viewed as a fallible one. -/
def liftHandler (h : Response → Request → Response) : FHandler :=
  fun w req => Except.ok (h w req)

/-- `Server.wrapSetCtrlAddressHeader`: when the bind point configures a
non-empty replacement (`NewAddress`), set the control-address header to
`"https://" ++ newAddress` on the writer before delegating; otherwise
delegate untouched. -/
def wrapSetCtrlAddressHeader (newAddress : String) (handler : FHandler) : FHandler :=
  fun w req =>
    let w2 :=
      if newAddress ≠ "" then
        { w with headers := headerSet w.headers ZitiCtrlAddressHeader ("https://" ++ newAddress) }
      else w
    handler w2 req

/-- `Server.wrapPanicRecovery`: run the handler; a panic is recovered.
If the server's `OnHandlerPanic` hook is set it handles the fault
(receiving writer, request and panic value); otherwise the fault is
logged and the response is whatever was written. The wrapped handler
never lets the fault escape, so its error case is empty. -/
def wrapPanicRecovery (onHandlerPanic : Option (Response → Request → String → Response))
    (handler : FHandler) : FHandler :=
  fun w req =>
    match handler w req with
    | Except.ok w2 => Except.ok w2
    | Except.error (panicVal, wp) =>
      match onHandlerPanic with
      | some hook => Except.ok (hook wp req panicVal)
      | none => Except.ok wp

/-- Modelled from the spec: `middleware.NewCompressionHandler` (the
repository's middleware subpackage, not under src/) performs response
compression negotiation at the transport encoding level; at this
abstraction level (status, body content, application headers) it
delegates to the wrapped handler unchanged. -/
def NewCompressionHandler (handler : FHandler) : FHandler :=
  handler

/-- `Server.wrapHandler`: the fixed middleware chain, innermost to
outermost: control-address header injection, panic recovery,
compression. -/
def wrapHandler (newAddress : String)
    (onHandlerPanic : Option (Response → Request → String → Response))
    (handler : FHandler) : FHandler :=
  NewCompressionHandler (wrapPanicRecovery onHandlerPanic (wrapSetCtrlAddressHeader newAddress handler))

/-- What `Serve` on one listener eventually returns: `http.ErrServerClosed`
after a clean shutdown, or some other error. -/
inductive ServeOutcome where
  | serverClosed
  | otherErr (msg : String)

/-- One bind point's listener as `Server.Start` experiences it: the
outcome of `transporttls.ListenTLS` and, when listening succeeded, the
outcome of `Serve`. -/
structure ListenerBehavior where
  listen : Except String Unit
  serveResult : ServeOutcome

/-- `Server.Start`: iterate the configured listeners in order.  For each,
listen; on a listen error return it at once.  Otherwise serve; when
`Serve` returns something other than `http.ErrServerClosed`, return that
error at once.  The returned flag list records, per listener in order,
whether serving was started for it. -/
def serverStart : List ListenerBehavior → List Bool × Option String
  | [] => ([], none)
  | b :: rest =>
    match b.listen with
    | Except.error e =>
      (false :: rest.map (fun _ => false), some ("error listening: " ++ e))
    | Except.ok _ =>
      match b.serveResult with
      | ServeOutcome.otherErr e =>
        (true :: rest.map (fun _ => false), some ("error listening: " ++ e))
      | ServeOutcome.serverClosed =>
        let (flags, err) := serverStart rest
        (true :: flags, err)

/-- The path-prefix dispatcher viewed as a plain (total) http handler:
the writer effect of one dispatch. -/
def pathPrefixHttpHandler (handlers : List ApiHandler) (defaultApi : Option ApiHandler)
    (fallback : Option (Request → HandlerOutput)) : Response → Request → Response :=
  fun w req => (pathPrefixServe handlers defaultApi fallback w req).response

/-- The predicate-strategy dispatcher viewed as a plain http handler. -/
def isHandledHttpHandler (handlers : List ApiHandler) (defaultApi : Option ApiHandler)
    (fallback : Option (Request → HandlerOutput)) : Response → Request → Response :=
  fun w req => (isHandledServe handlers defaultApi fallback w req).response

/-! ### Concrete sample data used by witnesses and counterexamples -/

/-- A sample handler: serves 200 with its binding name as body. -/
def mkSampleHandler (b t r : String) (d : Option Bool) : ApiHandler :=
  { binding := b, typeName := t, rootPath := r
    isHandlerOn := fun _ => false
    declaresDefault := d
    serve := fun _ => { status := 200, body := b, setHeaders := [] } }

/-- Sample handler bound at root path `/a`. -/
def sampleA : ApiHandler := mkSampleHandler "alpha" "*alphaHandler" "/a" none

/-- Sample handler bound at root path `/b`. -/
def sampleB : ApiHandler := mkSampleHandler "beta" "*betaHandler" "/b" none

/-- Sample self-declared default handler. -/
def sampleD1 : ApiHandler := mkSampleHandler "delta1" "*deltaHandler1" "/d1" (some true)

/-- A second self-declared default handler. -/
def sampleD2 : ApiHandler := mkSampleHandler "delta2" "*deltaHandler2" "/d2" (some true)

/-- A handler whose root path collides with `sampleA`'s. -/
def sampleADup : ApiHandler := mkSampleHandler "gamma" "*gammaHandler" "/a" none

/-- A self-declared default handler that also shares its root path with
`sampleBShare`. -/
def sampleADefDup : ApiHandler := mkSampleHandler "adef" "*adefHandler" "/p" (some true)

/-- A non-default handler sharing `sampleADefDup`'s root path `/p`. -/
def sampleBShare : ApiHandler := mkSampleHandler "bshare" "*bshareHandler" "/p" none

/-- A second self-declared default handler, at a distinct root path. -/
def sampleCDef : ApiHandler := mkSampleHandler "cdef" "*cdefHandler" "/q" (some true)

/-- A fresh writer: Go's implicit 200 status, empty body, no headers. -/
def freshWriter : Response := { status := 200, body := "", headers := [] }

/-- A fallible handler whose execution always panics before writing. -/
def panickingHandler : FHandler :=
  fun w _ => Except.error ("boom", w)

/-! ### Helper lemmas -/

/-- `find?` returns the element at the first index satisfying the predicate. -/
theorem find_first_of_earlier_false {α : Type} (p : α → Bool) :
    ∀ (l : List α) (i : Nat) (hi : i < l.length),
      p (l.get ⟨i, hi⟩) = true →
      (∀ j (hj : j < i), p (l.get ⟨j, Nat.lt_trans hj hi⟩) = false) →
      l.find? p = some (l.get ⟨i, hi⟩) := by
  intro l
  induction l with
  | nil => intro i hi; simp at hi
  | cons a as ih =>
    intro i hi hp hearly
    cases i with
    | zero =>
      simp only [List.get] at hp
      simp [List.find?_cons_of_pos _ hp]
    | succ n =>
      have ha : p a = false := by
        have := hearly 0 (Nat.succ_pos n)
        simpa using this
      rw [List.find?_cons_of_neg _ (by simp [ha])]
      have hn : n < as.length := Nat.lt_of_succ_lt_succ hi
      have := ih n hn (by simpa using hp)
        (fun j hj => by
          have := hearly (j + 1) (Nat.succ_lt_succ hj)
          simpa using this)
      simpa using this

/-- Every element of the joined list occurs in the join as a
contiguous substring (at the character level). -/
theorem mem_strJoin_infix (sep : String) :
    ∀ (names : List String) (x : String), x ∈ names →
      x.data <:+: (strJoin sep names).data := by
  intro names
  induction names with
  | nil => intro x hx; simp at hx
  | cons s rest ih =>
    intro x hx
    cases rest with
    | nil =>
      simp at hx
      subst hx
      simp [strJoin]
    | cons t ts =>
      rcases List.mem_cons.mp hx with h | h
      · subst h
        show x.data <:+: (x ++ sep ++ strJoin sep (t :: ts)).data
        rw [String.data_append, String.data_append]
        exact ⟨[], sep.data ++ (strJoin sep (t :: ts)).data, by simp⟩
      · have hrec := ih x h
        show x.data <:+: (s ++ sep ++ strJoin sep (t :: ts)).data
        rw [String.data_append, String.data_append]
        exact hrec.trans ⟨s.data ++ sep.data, [], by simp⟩

/-- Setting a header makes it readable. -/
theorem headerGet_headerSet_same (hs : List (String × String)) (k v : String) :
    headerGet (headerSet hs k v) k = some v := by
  unfold headerGet headerSet
  rw [List.find?_append]
  have h1 : (hs.filter (fun p => p.1 ≠ k)).find? (fun p => p.1 = k) = none := by
    rw [List.find?_eq_none]
    intro x hx
    have := List.of_mem_filter hx
    simpa using this
  simp [h1]

/-- Setting one header key leaves the others unchanged. -/
theorem headerGet_headerSet_ne (hs : List (String × String)) (k k' v : String)
    (hne : k' ≠ k) : headerGet (headerSet hs k' v) k = headerGet hs k := by
  unfold headerGet headerSet
  rw [List.find?_append]
  have h2 : List.find? (fun p => p.1 = k) [(k', v)] = none := by
    simp [List.find?, hne]
  rw [h2]
  have key : ∀ (l : List (String × String)),
      (l.filter (fun p => p.1 ≠ k')).find? (fun p => p.1 = k)
        = l.find? (fun p => p.1 = k) := by
    intro l
    induction l with
    | nil => simp
    | cons q t iht =>
      by_cases hq' : q.1 = k'
      · have hd : ¬((fun p => decide (p.1 ≠ k')) q = true) := by simp [hq']
        rw [List.filter_cons, if_neg hd]
        have hpq : ¬((fun p => decide (p.1 = k)) q = true) := by simp [hq', hne]
        rw [List.find?_cons_of_neg t hpq, iht]
      · have hd : (fun p => decide (p.1 ≠ k')) q = true := by simp [hq']
        rw [List.filter_cons, if_pos hd]
        by_cases hq : q.1 = k
        · have hpq : (fun p => decide (p.1 = k)) q = true := by simp [hq]
          rw [List.find?_cons_of_pos (t.filter (fun p => decide (p.1 ≠ k'))) hpq,
            List.find?_cons_of_pos t hpq]
        · have hpq : ¬((fun p => decide (p.1 = k)) q = true) := by simp [hq]
          rw [List.find?_cons_of_neg (t.filter (fun p => decide (p.1 ≠ k'))) hpq,
            List.find?_cons_of_neg t hpq, iht]
  rw [key hs]
  cases hs.find? (fun p => p.1 = k) <;> simp

/-- Folding header writes that never touch `key` leaves `key` unchanged. -/
theorem headerGet_foldl_preserve (key : String) :
    ∀ (kvs : List (String × String)) (hs : List (String × String)),
      (∀ kv ∈ kvs, kv.1 ≠ key) →
      headerGet (kvs.foldl (fun hs kv => headerSet hs kv.1 kv.2) hs) key = headerGet hs key := by
  intro kvs
  induction kvs with
  | nil => intro hs _; rfl
  | cons kv rest ih =>
    intro hs hno
    rw [List.foldl_cons]
    rw [ih _ (fun x hx => hno x (List.mem_cons_of_mem kv hx))]
    exact headerGet_headerSet_ne hs key kv.1 kv.2 (hno kv (List.mem_cons_self kv rest))

/-- A handler's writes leave alone any header key they do not set. -/
theorem headerGet_applyOutput (w : Response) (o : HandlerOutput) (key : String)
    (hno : ∀ kv ∈ o.setHeaders, kv.1 ≠ key) :
    headerGet (applyOutput w o).headers key = headerGet w.headers key :=
  headerGet_foldl_preserve key o.setHeaders w.headers hno

/-- The prefix dispatcher's response keeps any header key that none of
the involved handlers sets. -/
theorem pathPrefixServe_preserves_header (handlers : List ApiHandler)
    (d : Option ApiHandler) (fb : Option (Request → HandlerOutput))
    (w : Response) (req : Request) (key : String)
    (hh : ∀ h ∈ handlers, ∀ kv ∈ (h.serve req).setHeaders, kv.1 ≠ key)
    (hd : ∀ dh, d = some dh → ∀ kv ∈ (dh.serve req).setHeaders, kv.1 ≠ key)
    (hf : ∀ f, fb = some f → ∀ kv ∈ (f req).setHeaders, kv.1 ≠ key) :
    headerGet (pathPrefixServe handlers d fb w req).response.headers key
      = headerGet w.headers key := by
  unfold pathPrefixServe
  cases hfind : handlers.find? (pathPrefixMatch req) with
  | some h =>
    simpa using headerGet_applyOutput w (h.serve req) key (hh h (List.mem_of_find?_eq_some hfind))
  | none =>
    cases d with
    | some dh => simpa using headerGet_applyOutput w (dh.serve req) key (hd dh rfl)
    | none =>
      cases fb with
      | some f => simpa using headerGet_applyOutput w (f req) key (hf f rfl)
      | none => rfl

/-- The predicate dispatcher's response keeps any header key that none
of the involved handlers sets. -/
theorem isHandledServe_preserves_header (handlers : List ApiHandler)
    (d : Option ApiHandler) (fb : Option (Request → HandlerOutput))
    (w : Response) (req : Request) (key : String)
    (hh : ∀ h ∈ handlers, ∀ kv ∈ (h.serve req).setHeaders, kv.1 ≠ key)
    (hd : ∀ dh, d = some dh → ∀ kv ∈ (dh.serve req).setHeaders, kv.1 ≠ key)
    (hf : ∀ f, fb = some f → ∀ kv ∈ (f req).setHeaders, kv.1 ≠ key) :
    headerGet (isHandledServe handlers d fb w req).response.headers key
      = headerGet w.headers key := by
  unfold isHandledServe
  cases hfind : handlers.find? (fun h => h.isHandlerOn req) with
  | some h =>
    simpa using headerGet_applyOutput w (h.serve req) key (hh h (List.mem_of_find?_eq_some hfind))
  | none =>
    cases d with
    | some dh => simpa using headerGet_applyOutput w (dh.serve req) key (hd dh rfl)
    | none =>
      cases fb with
      | some f => simpa using headerGet_applyOutput w (f req) key (hf f rfl)
      | none => rfl

/-- On success `getDefault` hands back one of the supplied handlers
(never a null reference). -/
theorem getDefault_ok_mem (handlers : List ApiHandler) (d : ApiHandler)
    (h : getDefault handlers = Except.ok d) : d ∈ handlers := by
  cases handlers with
  | nil => simp [getDefault] at h
  | cons h0 rest =>
    cases hf : List.filter isSelfDeclaredDefault (h0 :: rest) with
    | nil =>
      simp [getDefault, hf] at h
      exact h ▸ List.getLast_mem (List.cons_ne_nil h0 rest)
    | cons d1 ds =>
      cases ds with
      | nil =>
        simp [getDefault, hf] at h
        have hd1 : d1 ∈ List.filter isSelfDeclaredDefault (h0 :: rest) := by
          rw [hf]; exact List.mem_cons_self d1 []
        exact h ▸ List.mem_of_mem_filter hd1
      | cons d2 ds' => simp [getDefault, hf] at h

/-- With at most one self-declared default and a non-empty list,
`getDefault` succeeds. -/
theorem getDefault_ok_of_few_defaults (handlers : List ApiHandler)
    (hne : handlers ≠ [])
    (hle : (handlers.filter isSelfDeclaredDefault).length ≤ 1) :
    ∃ d, getDefault handlers = Except.ok d := by
  cases handlers with
  | nil => exact absurd rfl hne
  | cons h0 rest =>
    cases hf : List.filter isSelfDeclaredDefault (h0 :: rest) with
    | nil =>
      exact ⟨(h0 :: rest).getLast (List.cons_ne_nil h0 rest), by simp [getDefault, hf]⟩
    | cons d1 ds =>
      cases ds with
      | nil => exact ⟨d1, by simp [getDefault, hf]⟩
      | cons d2 ds' =>
        rw [hf] at hle
        simp at hle

/-- With two or more self-declared defaults, `getDefault` reports the
too-many-defaults error. -/
theorem getDefault_error_of_many_defaults (handlers : List ApiHandler)
    (hmany : 2 ≤ (handlers.filter isSelfDeclaredDefault).length) :
    getDefault handlers
      = Except.error (tooManyDefaultsMsg (handlers.filter isSelfDeclaredDefault)) := by
  cases handlers with
  | nil => simp at hmany
  | cons h0 rest =>
    cases hf : List.filter isSelfDeclaredDefault (h0 :: rest) with
    | nil => rw [hf] at hmany; simp at hmany
    | cons d1 ds =>
      cases ds with
      | nil => rw [hf] at hmany; simp at hmany
      | cons d2 ds' => simp [getDefault, hf]

/-- `assocFind` misses exactly when the key is absent. -/
theorem assocFind_eq_none_iff (m : List (String × ApiHandler)) (k : String) :
    assocFind m k = none ↔ k ∉ m.map Prod.fst := by
  unfold assocFind
  constructor
  · intro hnone hmem
    rcases List.mem_map.mp hmem with ⟨q, hq, hk⟩
    cases hf : m.find? (fun p => p.1 = k) with
    | some q' => rw [hf] at hnone; simp at hnone
    | none =>
      rw [List.find?_eq_none] at hf
      exact hf q hq (by simp [hk])
  · intro hnot
    cases hf : m.find? (fun p => p.1 = k) with
    | none => simp
    | some q =>
      exfalso
      have hq : q.1 = k := by simpa using List.find?_some hf
      exact hnot (List.mem_map.mpr ⟨q, List.mem_of_find?_eq_some hf, hq⟩)

/-- `assocFind` distributes over appended association lists. -/
theorem assocFind_append (a b : List (String × ApiHandler)) (k : String) :
    assocFind (a ++ b) k = (assocFind a k).or (assocFind b k) := by
  unfold assocFind
  rw [List.find?_append]
  cases a.find? (fun p => p.1 = k) <;> simp

/-- A successful map build means all inserted keys were fresh: the
accumulator keys followed by the handlers' root paths are distinct. -/
theorem buildHandlerMap_ok_nodup :
    ∀ (l : List ApiHandler) (acc m : List (String × ApiHandler)),
      buildHandlerMap l acc = Except.ok m →
      (acc.map Prod.fst).Nodup →
      (acc.map Prod.fst ++ l.map (fun h => h.rootPath)).Nodup := by
  intro l
  induction l with
  | nil =>
    intro acc m _ hacc
    simpa using hacc
  | cons h rest ih =>
    intro acc m hok hacc
    rw [buildHandlerMap] at hok
    cases hfind : assocFind acc h.rootPath with
    | some existing => rw [hfind] at hok; cases hok
    | none =>
      rw [hfind] at hok
      have hnotin : h.rootPath ∉ acc.map Prod.fst := (assocFind_eq_none_iff acc h.rootPath).mp hfind
      have hacc' : ((acc ++ [(h.rootPath, h)]).map Prod.fst).Nodup := by
        rw [List.map_append]
        simpa using (List.nodup_append.mpr ⟨hacc, by simp, by simpa using hnotin⟩)
      have := ih (acc ++ [(h.rootPath, h)]) m hok hacc'
      rw [List.map_append] at this
      simpa [List.append_assoc] using this

/-- Whatever error the map build reports is a duplicate-root-path error
naming two handlers of the overall set that share a root path. -/
theorem buildHandlerMap_error_shape (H : List ApiHandler) :
    ∀ (l : List ApiHandler) (acc : List (String × ApiHandler)) (e : String),
      buildHandlerMap l acc = Except.error e →
      (∀ q ∈ acc, q.1 = q.2.rootPath ∧ q.2 ∈ H) →
      (∀ x ∈ l, x ∈ H) →
      ∃ hNew hExisting, hNew ∈ H ∧ hExisting ∈ H ∧
        hExisting.rootPath = hNew.rootPath ∧
        e = duplicateRootMsg hNew.rootPath hNew.binding hExisting.binding := by
  intro l
  induction l with
  | nil => intro acc e he _ _; simp [buildHandlerMap] at he
  | cons h rest ih =>
    intro acc e he hacc hsub
    rw [buildHandlerMap] at he
    cases hfind : assocFind acc h.rootPath with
    | some existing =>
      rw [hfind] at he
      have hmsg : e = duplicateRootMsg h.rootPath h.binding existing.binding := by
        cases he; rfl
      obtain ⟨q, hq⟩ : ∃ q, acc.find? (fun p => p.1 = h.rootPath) = some q ∧ q.2 = existing := by
        unfold assocFind at hfind
        cases hfq : acc.find? (fun p => p.1 = h.rootPath) with
        | none => rw [hfq] at hfind; cases hfind
        | some q => rw [hfq] at hfind; exact ⟨q, rfl, by simpa using hfind⟩
      have hqmem : q ∈ acc := List.mem_of_find?_eq_some hq.1
      have hqkey : q.1 = h.rootPath := by
        have := List.find?_some hq.1
        simpa using this
      have hqprops := hacc q hqmem
      refine ⟨h, existing, hsub h (List.mem_cons_self h rest), hq.2 ▸ hqprops.2, ?_, hmsg⟩
      rw [← hq.2, ← hqprops.1, hqkey]
    | none =>
      rw [hfind] at he
      refine ih (acc ++ [(h.rootPath, h)]) e he ?_ ?_
      · intro q hq
        rcases List.mem_append.mp hq with hq1 | hq2
        · exact hacc q hq1
        · have : q = (h.rootPath, h) := by simpa using hq2
          subst this
          exact ⟨rfl, hsub h (List.mem_cons_self h rest)⟩
      · intro x hx
        exact hsub x (List.mem_cons_of_mem h hx)

/-- With pairwise-distinct root paths (all fresh w.r.t. the accumulator),
the map build succeeds. -/
theorem buildHandlerMap_ok_of_nodup :
    ∀ (l : List ApiHandler) (acc : List (String × ApiHandler)),
      (∀ x ∈ l, assocFind acc x.rootPath = none) →
      (l.map (fun h => h.rootPath)).Nodup →
      ∃ m, buildHandlerMap l acc = Except.ok m := by
  intro l
  induction l with
  | nil => intro acc _ _; exact ⟨acc, rfl⟩
  | cons h rest ih =>
    intro acc hfresh hnd
    have hnd' : (∀ x ∈ rest, ¬x.rootPath = h.rootPath)
        ∧ (rest.map (fun h => h.rootPath)).Nodup := by simpa using hnd
    have hfind : assocFind acc h.rootPath = none := hfresh h (List.mem_cons_self h rest)
    rw [buildHandlerMap, hfind]
    apply ih
    · intro x hx
      rw [assocFind_append, hfresh x (List.mem_cons_of_mem h hx)]
      have hxh : h.rootPath ≠ x.rootPath := fun hc => hnd'.1 x hx hc.symm
      simp [assocFind, List.find?, hxh]
    · exact hnd'.2

/-- Two positions sharing a root path defeat `Nodup` of the root paths. -/
theorem not_nodup_of_dup_rootPath (l : List ApiHandler) (i j : Nat)
    (hij : i < j) (hj : j < l.length)
    (heq : (l.get ⟨i, Nat.lt_trans hij hj⟩).rootPath = (l.get ⟨j, hj⟩).rootPath) :
    ¬ (l.map (fun h => h.rootPath)).Nodup := by
  intro hnd
  rw [List.nodup_iff_injective_get] at hnd
  have hi' : i < (l.map (fun h => h.rootPath)).length := by
    simpa using Nat.lt_trans hij hj
  have hj' : j < (l.map (fun h => h.rootPath)).length := by simpa using hj
  have hget : (l.map (fun h => h.rootPath)).get ⟨i, hi'⟩
      = (l.map (fun h => h.rootPath)).get ⟨j, hj'⟩ := by
    rw [List.get_map, List.get_map]
    exact heq
  have := hnd hget
  have : i = j := by simpa using this
  omega

/-! ### Claim theorems -/

/-- Claim C1: for every request dispatched by a built demux handler
(either strategy), the four-tier order holds exactly: a matching handler
wins; otherwise the resolved default handler; otherwise (resolved
default reference nil) the dispatcher's own configurable fallback
handler; otherwise a 404 Not Found with an empty body.  The last two
conjuncts record that the configurable fallback is what
`GetDefaultHttpHandler` resolves: the externally set handler when
present, nothing when unset with no parent. -/
theorem C1_four_tier_dispatch_order (handlers : List ApiHandler)
    (defaultApi : Option ApiHandler) (fallback : Option (Request → HandlerOutput))
    (w : Response) (req : Request) :
    (∀ h, handlers.find? (pathPrefixMatch req) = some h →
      pathPrefixServe handlers defaultApi fallback w req
        = { response := applyOutput w (h.serve req), attached := some h })
    ∧ (∀ d, handlers.find? (pathPrefixMatch req) = none → defaultApi = some d →
      pathPrefixServe handlers defaultApi fallback w req
        = { response := applyOutput w (d.serve req), attached := some d })
    ∧ (∀ f, handlers.find? (pathPrefixMatch req) = none → defaultApi = none →
        fallback = some f →
      pathPrefixServe handlers defaultApi fallback w req
        = { response := applyOutput w (f req), attached := none })
    ∧ (handlers.find? (pathPrefixMatch req) = none → defaultApi = none → fallback = none →
      pathPrefixServe handlers defaultApi fallback w req
        = { response := { w with status := 404, body := w.body ++ "" }, attached := none })
    ∧ (∀ h, handlers.find? (fun x => x.isHandlerOn req) = some h →
      isHandledServe handlers defaultApi fallback w req
        = { response := applyOutput w (h.serve req), attached := some h })
    ∧ (∀ d, handlers.find? (fun x => x.isHandlerOn req) = none → defaultApi = some d →
      isHandledServe handlers defaultApi fallback w req
        = { response := applyOutput w (d.serve req), attached := some d })
    ∧ (∀ f, handlers.find? (fun x => x.isHandlerOn req) = none → defaultApi = none →
        fallback = some f →
      isHandledServe handlers defaultApi fallback w req
        = { response := applyOutput w (f req), attached := none })
    ∧ (handlers.find? (fun x => x.isHandlerOn req) = none → defaultApi = none →
        fallback = none →
      isHandledServe handlers defaultApi fallback w req
        = { response := { w with status := 404, body := w.body ++ "" }, attached := none })
    ∧ (∀ f p, getDefaultHttpHandler (Provider.mk (some f) p) = some f)
    ∧ getDefaultHttpHandler (Provider.mk none none) = none := by
  refine ⟨?_, ?_, ?_, ?_, ?_, ?_, ?_, ?_, ?_, rfl⟩
  · intro h hf; simp [pathPrefixServe, hf]
  · intro d hf hd; subst hd; simp [pathPrefixServe, hf]
  · intro f hf hd hb; subst hd; subst hb; simp [pathPrefixServe, hf]
  · intro hf hd hb; subst hd; subst hb; simp [pathPrefixServe, hf, notFoundWrite]
  · intro h hf; simp [isHandledServe, hf]
  · intro d hf hd; subst hd; simp [isHandledServe, hf]
  · intro f hf hd hb; subst hd; subst hb; simp [isHandledServe, hf]
  · intro hf hd hb; subst hd; subst hb; simp [isHandledServe, hf, notFoundWrite]
  · intro f p; rfl

/-- Claim C1 witness: with one handler at `/a`, a request to `/c`, no
resolved default and no configurable fallback, the dispatcher answers
404 with an empty body. -/
theorem C1_witness :
    pathPrefixServe [sampleA] none none freshWriter { urlPath := "/c" }
      = { response := { status := 404, body := "", headers := [] }, attached := none } :=
  (C1_four_tier_dispatch_order [sampleA] none none freshWriter
    { urlPath := "/c" }).2.2.2.1 rfl rfl rfl

/-- Claim C4: the first handler in declared order whose root path is a
prefix of the request path is selected (earlier declaration order wins);
a request matching no handler goes to the resolved default. -/
theorem C4_first_prefix_match_wins (handlers : List ApiHandler) (d : ApiHandler)
    (fb : Option (Request → HandlerOutput)) (w : Response) (req : Request) :
    (∀ (i : Nat) (hi : i < handlers.length),
      pathPrefixMatch req (handlers.get ⟨i, hi⟩) = true →
      (∀ (j : Nat) (hj : j < i),
        pathPrefixMatch req (handlers.get ⟨j, Nat.lt_trans hj hi⟩) = false) →
      pathPrefixServe handlers (some d) fb w req
        = { response := applyOutput w ((handlers.get ⟨i, hi⟩).serve req),
            attached := some (handlers.get ⟨i, hi⟩) })
    ∧ ((∀ h ∈ handlers, pathPrefixMatch req h = false) →
      pathPrefixServe handlers (some d) fb w req
        = { response := applyOutput w (d.serve req), attached := some d }) := by
  constructor
  · intro i hi hp hearly
    have hfind := find_first_of_earlier_false (pathPrefixMatch req) handlers i hi hp hearly
    simp [pathPrefixServe, hfind]
  · intro hnone
    have hfind : handlers.find? (pathPrefixMatch req) = none :=
      List.find?_eq_none.mpr (fun x hx => by simp [hnone x hx])
    simp [pathPrefixServe, hfind]

/-- Claim C4 witness: with handlers rooted at `/a` and `/b`, a request
to `/a/x` dispatches to the `/a` handler and a request to `/c`
dispatches to the resolved default. -/
theorem C4_witness :
    pathPrefixServe [sampleA, sampleB] (some sampleB) none freshWriter { urlPath := "/a/x" }
      = { response := applyOutput freshWriter (sampleA.serve { urlPath := "/a/x" }),
          attached := some sampleA }
    ∧ pathPrefixServe [sampleA, sampleB] (some sampleB) none freshWriter { urlPath := "/c" }
      = { response := applyOutput freshWriter (sampleB.serve { urlPath := "/c" }),
          attached := some sampleB } := by
  constructor
  · exact (C4_first_prefix_match_wins [sampleA, sampleB] sampleB none freshWriter
      { urlPath := "/a/x" }).1 0 (by decide) rfl (fun j hj => absurd hj (Nat.not_lt_zero j))
  · refine (C4_first_prefix_match_wins [sampleA, sampleB] sampleB none freshWriter
      { urlPath := "/c" }).2 ?_
    intro h hmem
    rcases List.mem_cons.mp hmem with rfl | hmem
    · rfl
    · rcases List.mem_cons.mp hmem with rfl | hmem
      · rfl
      · exact absurd hmem (List.not_mem_nil h)

/-- Claim C10: prefix matching is plain string-prefix comparison with no
path-segment boundary: any request whose path begins with the characters
of the (first-matching) handler's root path is routed to it, even when
the prefix ends mid-segment. -/
theorem C10_no_segment_boundary (h : ApiHandler) (d : Option ApiHandler)
    (fb : Option (Request → HandlerOutput)) (w : Response) (req : Request)
    (hpre : hasPrefix req.urlPath h.rootPath = true) :
    pathPrefixMatch req h = h.rootPath.data.isPrefixOf req.urlPath.data
    ∧ pathPrefixServe [h] d fb w req
      = { response := applyOutput w (h.serve req), attached := some h } := by
  refine ⟨rfl, ?_⟩
  have hfind : [h].find? (pathPrefixMatch req) = some h :=
    List.find?_cons_of_pos [] hpre
  simp [pathPrefixServe, hfind]

/-- Claim C10 witness: the handler rooted at `/a` receives a request to
`/apple`, although `/apple` does not extend `/a` at a path-segment
boundary. -/
theorem C10_witness :
    hasPrefix "/apple" "/a" = true
    ∧ hasPrefix "/apple" "/a/" = false
    ∧ pathPrefixServe [sampleA] none none freshWriter { urlPath := "/apple" }
      = { response := { status := 200, body := "alpha", headers := [] },
          attached := some sampleA } :=
  ⟨rfl, rfl,
    (C10_no_segment_boundary sampleA none none freshWriter { urlPath := "/apple" } rfl).2⟩

/-- Claim C9: `getDefault` only ever yields a handler drawn from the
supplied list or an error (never a null handler), every successfully
built dispatcher (either factory) holds a non-nil resolved default, and
consequently every request entering it is dispatched to some ApiHandler
— attached to the request context — so the configurable-fallback and
built-in 404 tiers are unreachable. -/
theorem C9_default_always_resolved (handlers : List ApiHandler) :
    (∀ d, getDefault handlers = Except.ok d → d ∈ handlers)
    ∧ (∀ bd, PathPrefixBuild handlers = Except.ok bd →
        bd.handlers = handlers
        ∧ (∃ dh, bd.defaultApi = some dh ∧ dh ∈ handlers)
        ∧ ∀ fb w req, ∃ h, h ∈ handlers
            ∧ pathPrefixServe bd.handlers bd.defaultApi fb w req
              = { response := applyOutput w (h.serve req), attached := some h })
    ∧ (∀ bd, IsHandledBuild handlers = Except.ok bd →
        bd.handlers = handlers
        ∧ (∃ dh, bd.defaultApi = some dh ∧ dh ∈ handlers)
        ∧ ∀ fb w req, ∃ h, h ∈ handlers
            ∧ isHandledServe bd.handlers bd.defaultApi fb w req
              = { response := applyOutput w (h.serve req), attached := some h }) := by
  refine ⟨fun d hd => getDefault_ok_mem handlers d hd, ?_, ?_⟩
  · intro bd hbd
    unfold PathPrefixBuild at hbd
    cases hgd : getDefault handlers with
    | error e => rw [hgd] at hbd; cases hbd
    | ok d =>
      rw [hgd] at hbd
      cases hbm : buildHandlerMap handlers [] with
      | error e => rw [hbm] at hbd; cases hbd
      | ok m =>
        rw [hbm] at hbd
        cases hbd
        refine ⟨rfl, ⟨d, rfl, getDefault_ok_mem handlers d hgd⟩, ?_⟩
        intro fb w req
        cases hfind : handlers.find? (pathPrefixMatch req) with
        | some h =>
          exact ⟨h, List.mem_of_find?_eq_some hfind, by simp [pathPrefixServe, hfind]⟩
        | none =>
          exact ⟨d, getDefault_ok_mem handlers d hgd, by simp [pathPrefixServe, hfind]⟩
  · intro bd hbd
    unfold IsHandledBuild at hbd
    cases hgd : getDefault handlers with
    | error e => rw [hgd] at hbd; cases hbd
    | ok d =>
      rw [hgd] at hbd
      cases hbd
      refine ⟨rfl, ⟨d, rfl, getDefault_ok_mem handlers d hgd⟩, ?_⟩
      intro fb w req
      cases hfind : handlers.find? (fun x => x.isHandlerOn req) with
      | some h =>
        exact ⟨h, List.mem_of_find?_eq_some hfind, by simp [isHandledServe, hfind]⟩
      | none =>
        exact ⟨d, getDefault_ok_mem handlers d hgd, by simp [isHandledServe, hfind]⟩

/-- Claim C9 witness: the dispatcher built from `[sampleA, sampleB]`
dispatches a request matching no handler to an actual ApiHandler from
the list (the resolved default), attached to the request context. -/
theorem C9_witness :
    ∃ h, h ∈ [sampleA, sampleB]
      ∧ pathPrefixServe [sampleA, sampleB] (some sampleB) none freshWriter { urlPath := "/c" }
        = { response := applyOutput freshWriter (h.serve { urlPath := "/c" }),
            attached := some h } :=
  ((C9_default_always_resolved [sampleA, sampleB]).2.1
    { handlers := [sampleA, sampleB], defaultApi := some sampleB } rfl).2.2
    none freshWriter { urlPath := "/c" }

/-- Claim C2: two or more self-declared default handlers make `Build`
fail (both factories, via `getDefault`), and the error message names
every conflicting handler by binding name and concrete type: it is the
fixed text followed by the comma-join of one `[Binding: .., Type: ..]`
entry per conflicting handler, each of which occurs verbatim in the
message. -/
theorem C2_multiple_defaults_rejected (handlers : List ApiHandler)
    (hmany : 2 ≤ (handlers.filter isSelfDeclaredDefault).length) :
    getDefault handlers
      = Except.error (tooManyDefaultsMsg (handlers.filter isSelfDeclaredDefault))
    ∧ PathPrefixBuild handlers
      = Except.error (tooManyDefaultsMsg (handlers.filter isSelfDeclaredDefault))
    ∧ IsHandledBuild handlers
      = Except.error (tooManyDefaultsMsg (handlers.filter isSelfDeclaredDefault))
    ∧ ∀ h ∈ handlers.filter isSelfDeclaredDefault,
        (defaultHandlerName h).data
          <:+: (tooManyDefaultsMsg (handlers.filter isSelfDeclaredDefault)).data := by
  have hgd : getDefault handlers
      = Except.error (tooManyDefaultsMsg (handlers.filter isSelfDeclaredDefault)) := by
    cases handlers with
    | nil => simp at hmany
    | cons h0 rest =>
      cases hf : List.filter isSelfDeclaredDefault (h0 :: rest) with
      | nil => rw [hf] at hmany; simp at hmany
      | cons d1 ds =>
        cases ds with
        | nil => rw [hf] at hmany; simp at hmany
        | cons d2 ds' => simp [getDefault, hf]
  refine ⟨hgd, by unfold PathPrefixBuild; rw [hgd], by unfold IsHandledBuild; rw [hgd], ?_⟩
  intro h hmem
  unfold tooManyDefaultsMsg
  rw [String.data_append]
  have hj := mem_strJoin_infix ","
    ((handlers.filter isSelfDeclaredDefault).map defaultHandlerName)
    (defaultHandlerName h) (List.mem_map.mpr ⟨h, hmem, rfl⟩)
  refine hj.trans ?_
  exact ⟨("too many default handlers found, ensure that only one handler is marked as the default: ").data,
    [], by simp⟩

/-- Claim C2 witness: two self-declared defaults produce the conflict
error listing both `[Binding: .., Type: ..]` entries. -/
theorem C2_witness :
    getDefault [sampleD1, sampleD2]
      = Except.error (tooManyDefaultsMsg
          (List.filter isSelfDeclaredDefault [sampleD1, sampleD2]))
    ∧ tooManyDefaultsMsg (List.filter isSelfDeclaredDefault [sampleD1, sampleD2])
      = "too many default handlers found, ensure that only one handler is marked as the default: [Binding: delta1, Type: *deltaHandler1],[Binding: delta2, Type: *deltaHandler2]" :=
  ⟨(C2_multiple_defaults_rejected [sampleD1, sampleD2] (Nat.le_refl 2)).1, rfl⟩

/-- Claim C3 counterexample: a non-empty handler list with zero
self-declared defaults on which the prefix-strategy `Build` nonetheless
fails (duplicate root paths), so "Build succeeds" does not hold as
stated. -/
theorem C3_counterexample :
    List.filter isSelfDeclaredDefault [sampleA, sampleADup] = []
    ∧ PathPrefixBuild [sampleA, sampleADup]
      = Except.error "duplicate root path [/a] detected for both bindings [gamma] and [alpha]" :=
  ⟨rfl, rfl⟩

/-- Claim C3 (amended): for every non-empty handler list with zero
self-declared defaults, the last handler in supplied order is resolved
as the default: `getDefault` returns it, the predicate-strategy `Build`
succeeds with it, and the prefix-strategy `Build` succeeds with it
provided the root paths are distinct; for an empty list both `Build`s
fail and return no dispatcher. -/
theorem C3_last_handler_default (handlers : List ApiHandler) (hne : handlers ≠ [])
    (hzero : handlers.filter isSelfDeclaredDefault = []) :
    getDefault handlers = Except.ok (handlers.getLast hne)
    ∧ IsHandledBuild handlers
      = Except.ok { handlers := handlers, defaultApi := some (handlers.getLast hne) }
    ∧ ((handlers.map (fun h => h.rootPath)).Nodup →
      PathPrefixBuild handlers
        = Except.ok { handlers := handlers, defaultApi := some (handlers.getLast hne) })
    ∧ PathPrefixBuild [] = Except.error "no handlers provided"
    ∧ IsHandledBuild [] = Except.error "no handlers provided" := by
  have hgd : getDefault handlers = Except.ok (handlers.getLast hne) := by
    cases handlers with
    | nil => exact absurd rfl hne
    | cons h0 rest => simp [getDefault, hzero]
  refine ⟨hgd, by unfold IsHandledBuild; rw [hgd], ?_, rfl, rfl⟩
  intro hnd
  unfold PathPrefixBuild
  rw [hgd]
  obtain ⟨m, hm⟩ := buildHandlerMap_ok_of_nodup handlers [] (fun x _ => rfl) hnd
  rw [hm]

/-- Claim C3 witness: a two-handler list with zero self-declared
defaults and distinct root paths resolves the last handler as default
and the prefix `Build` succeeds. -/
theorem C3_witness :
    getDefault [sampleA, sampleB] = Except.ok sampleB
    ∧ PathPrefixBuild [sampleA, sampleB]
      = Except.ok { handlers := [sampleA, sampleB], defaultApi := some sampleB } := by
  have h := C3_last_handler_default [sampleA, sampleB] (List.cons_ne_nil sampleA [sampleB]) rfl
  exact ⟨h.1, h.2.2.1 (by decide)⟩

/-- Claim C5 counterexample: bindings `adef` and `bshare` share root
path `/p`, yet because two handlers (`adef`, `cdef`) self-declare as
default, the prefix-strategy `Build` fails with the too-many-defaults
error — `getDefault` runs before the duplicate-root check — and that
error does not name `bshare`, one of the two bindings sharing the
duplicated root path, anywhere in its text.  So the claim as stated is
false on this input. -/
theorem C5_counterexample :
    PathPrefixBuild [sampleADefDup, sampleBShare, sampleCDef]
      = Except.error (tooManyDefaultsMsg [sampleADefDup, sampleCDef])
    ∧ ¬ ((sampleBShare.binding).data
          <:+: (tooManyDefaultsMsg [sampleADefDup, sampleCDef]).data) := by
  constructor
  · rfl
  · set_option maxRecDepth 8192 in decide

/-- Claim C5 (amended): a handler list in which two positions share a
root path makes the prefix-strategy `Build` fail, and — provided the
default resolution itself succeeds, i.e. at most one self-declared
default — the error names the bindings of two handlers of the list that
share a duplicated root path (with two or more self-declared defaults,
`Build` fails earlier with the too-many-defaults error instead). -/
theorem C5_duplicate_root_paths_rejected (handlers : List ApiHandler)
    (i j : Nat) (hij : i < j) (hj : j < handlers.length)
    (heq : (handlers.get ⟨i, Nat.lt_trans hij hj⟩).rootPath
      = (handlers.get ⟨j, hj⟩).rootPath) :
    (∃ e, PathPrefixBuild handlers = Except.error e)
    ∧ ((handlers.filter isSelfDeclaredDefault).length ≤ 1 →
      ∃ hNew hExisting,
        hNew ∈ handlers ∧ hExisting ∈ handlers
        ∧ hExisting.rootPath = hNew.rootPath
        ∧ PathPrefixBuild handlers
          = Except.error (duplicateRootMsg hNew.rootPath hNew.binding hExisting.binding)) := by
  have hne : handlers ≠ [] := by
    intro hcontra
    subst hcontra
    simp at hj
  have hnotnd := not_nodup_of_dup_rootPath handlers i j hij hj heq
  have hnamed : (handlers.filter isSelfDeclaredDefault).length ≤ 1 →
      ∃ hNew hExisting,
        hNew ∈ handlers ∧ hExisting ∈ handlers
        ∧ hExisting.rootPath = hNew.rootPath
        ∧ PathPrefixBuild handlers
          = Except.error (duplicateRootMsg hNew.rootPath hNew.binding hExisting.binding) := by
    intro hfew
    obtain ⟨d, hd⟩ := getDefault_ok_of_few_defaults handlers hne hfew
    cases hbm : buildHandlerMap handlers [] with
    | ok m =>
      have hnd := buildHandlerMap_ok_nodup handlers [] m hbm (by simp)
      simp at hnd
      exact absurd hnd hnotnd
    | error e =>
      obtain ⟨hN, hE, hNmem, hEmem, hroot, hmsg⟩ :=
        buildHandlerMap_error_shape handlers handlers [] e hbm (by simp) (fun x hx => hx)
      refine ⟨hN, hE, hNmem, hEmem, hroot, ?_⟩
      unfold PathPrefixBuild
      rw [hd, hbm, hmsg]
  refine ⟨?_, hnamed⟩
  by_cases hfew : (handlers.filter isSelfDeclaredDefault).length ≤ 1
  · obtain ⟨hN, hE, _, _, _, hmsg⟩ := hnamed hfew
    exact ⟨_, hmsg⟩
  · have hmany : 2 ≤ (handlers.filter isSelfDeclaredDefault).length := by omega
    have hgd := getDefault_error_of_many_defaults handlers hmany
    refine ⟨tooManyDefaultsMsg (handlers.filter isSelfDeclaredDefault), ?_⟩
    unfold PathPrefixBuild
    rw [hgd]

/-- Claim C5 witness: two bindings (`alpha` and `gamma`) sharing root
path `/a`, with no self-declared defaults, make the prefix `Build` fail
naming two such bindings. -/
theorem C5_witness :
    ∃ hNew hExisting,
      hNew ∈ [sampleA, sampleADup] ∧ hExisting ∈ [sampleA, sampleADup]
      ∧ hExisting.rootPath = hNew.rootPath
      ∧ PathPrefixBuild [sampleA, sampleADup]
        = Except.error (duplicateRootMsg hNew.rootPath hNew.binding hExisting.binding) :=
  (C5_duplicate_root_paths_rejected [sampleA, sampleADup] 0 1 Nat.zero_lt_one
    (by decide) rfl).2 (by decide)

/-- Claim C6 counterexample: with two bind points where the first fails
to listen and the second would listen and serve fine, `Start` returns
the first error and never starts the second listener — refuting the
claim that a failure on one listener does not prevent the remaining
listeners from being started. -/
theorem C6_counterexample :
    serverStart
        [{ listen := Except.error "boom", serveResult := ServeOutcome.serverClosed },
         { listen := Except.ok (), serveResult := ServeOutcome.serverClosed }]
      = ([false, false], some "error listening: boom")
    ∧ serverStart [{ listen := Except.ok (), serveResult := ServeOutcome.serverClosed }]
      = ([true], none) :=
  ⟨rfl, rfl⟩

/-- Claim C6 (amended): `Server.Start` attempts its bind points
sequentially; the first listen failure is returned to the caller, the
listeners before it (which listened and served to a clean close) were
started, and the failing listener and every listener after it are not
started. -/
theorem C6_sequential_start_aborts (bs : List ListenerBehavior)
    (bad : ListenerBehavior) (rest : List ListenerBehavior) (e : String)
    (hok : ∀ b ∈ bs, b.listen = Except.ok () ∧ b.serveResult = ServeOutcome.serverClosed)
    (hbad : bad.listen = Except.error e) :
    serverStart (bs ++ bad :: rest)
      = (bs.map (fun _ => true) ++ false :: rest.map (fun _ => false),
         some ("error listening: " ++ e)) := by
  induction bs with
  | nil =>
    simp only [List.nil_append, List.map_nil]
    rw [serverStart, hbad]
  | cons b tl ih =>
    have hb := hok b (List.mem_cons_self b tl)
    have ihh := ih (fun x hx => hok x (List.mem_cons_of_mem b hx))
    rw [List.cons_append, serverStart, hb.1, hb.2, ihh]
    rfl

/-- Claim C6 witness: a good listener, then a failing one, then another
good one: only the first is started and the error is returned. -/
theorem C6_witness :
    serverStart
        [{ listen := Except.ok (), serveResult := ServeOutcome.serverClosed },
         { listen := Except.error "boom", serveResult := ServeOutcome.serverClosed },
         { listen := Except.ok (), serveResult := ServeOutcome.serverClosed }]
      = ([true, false, false], some "error listening: boom") := by
  have h := C6_sequential_start_aborts
    [{ listen := Except.ok (), serveResult := ServeOutcome.serverClosed }]
    { listen := Except.error "boom", serveResult := ServeOutcome.serverClosed }
    [{ listen := Except.ok (), serveResult := ServeOutcome.serverClosed }]
    "boom"
    (by
      intro b hb
      rw [List.mem_singleton] at hb
      subst hb
      exact ⟨rfl, rfl⟩)
    rfl
  exact h

/-- The full middleware pipeline around a non-panicking handler returns
its response with the (conditionally) header-decorated writer. -/
theorem wrapHandler_ok (newAddress : String)
    (onPanic : Option (Response → Request → String → Response))
    (H : Response → Request → Response) (w : Response) (req : Request) :
    wrapHandler newAddress onPanic (liftHandler H) w req
      = Except.ok (H
          (if newAddress ≠ "" then
            { w with headers :=
                headerSet w.headers ZitiCtrlAddressHeader ("https://" ++ newAddress) }
          else w) req) :=
  rfl

/-- Claim C7: through the server's middleware pipeline, for either demux
strategy, every response — the 404 fallback included — carries the
control-address header valued `https://` ++ the replacement address
whenever a non-empty replacement address is configured (and the involved
handlers do not themselves touch that header); with no replacement
address configured the header is not set. -/
theorem C7_ctrl_address_header (newAddress : String)
    (onPanic : Option (Response → Request → String → Response))
    (handlers : List ApiHandler) (d : Option ApiHandler)
    (fb : Option (Request → HandlerOutput)) (w : Response) (req : Request)
    (hh : ∀ h ∈ handlers, ∀ kv ∈ (h.serve req).setHeaders, kv.1 ≠ ZitiCtrlAddressHeader)
    (hd : ∀ dh, d = some dh → ∀ kv ∈ (dh.serve req).setHeaders, kv.1 ≠ ZitiCtrlAddressHeader)
    (hf : ∀ f, fb = some f → ∀ kv ∈ (f req).setHeaders, kv.1 ≠ ZitiCtrlAddressHeader) :
    (∃ res,
      wrapHandler newAddress onPanic (liftHandler (pathPrefixHttpHandler handlers d fb)) w req
        = Except.ok res
      ∧ (newAddress ≠ "" →
          headerGet res.headers ZitiCtrlAddressHeader = some ("https://" ++ newAddress))
      ∧ (newAddress = "" → headerGet w.headers ZitiCtrlAddressHeader = none →
          headerGet res.headers ZitiCtrlAddressHeader = none))
    ∧ (∃ res,
      wrapHandler newAddress onPanic (liftHandler (isHandledHttpHandler handlers d fb)) w req
        = Except.ok res
      ∧ (newAddress ≠ "" →
          headerGet res.headers ZitiCtrlAddressHeader = some ("https://" ++ newAddress))
      ∧ (newAddress = "" → headerGet w.headers ZitiCtrlAddressHeader = none →
          headerGet res.headers ZitiCtrlAddressHeader = none)) := by
  constructor
  · refine ⟨_, wrapHandler_ok newAddress onPanic (pathPrefixHttpHandler handlers d fb) w req, ?_, ?_⟩
    · intro hna
      rw [if_pos hna]
      unfold pathPrefixHttpHandler
      rw [pathPrefixServe_preserves_header handlers d fb _ req ZitiCtrlAddressHeader hh hd hf]
      exact headerGet_headerSet_same w.headers ZitiCtrlAddressHeader ("https://" ++ newAddress)
    · intro hna hw
      rw [if_neg (by simp [hna])]
      unfold pathPrefixHttpHandler
      rw [pathPrefixServe_preserves_header handlers d fb _ req ZitiCtrlAddressHeader hh hd hf]
      exact hw
  · refine ⟨_, wrapHandler_ok newAddress onPanic (isHandledHttpHandler handlers d fb) w req, ?_, ?_⟩
    · intro hna
      rw [if_pos hna]
      unfold isHandledHttpHandler
      rw [isHandledServe_preserves_header handlers d fb _ req ZitiCtrlAddressHeader hh hd hf]
      exact headerGet_headerSet_same w.headers ZitiCtrlAddressHeader ("https://" ++ newAddress)
    · intro hna hw
      rw [if_neg (by simp [hna])]
      unfold isHandledHttpHandler
      rw [isHandledServe_preserves_header handlers d fb _ req ZitiCtrlAddressHeader hh hd hf]
      exact hw

/-- Claim C7 witness: with a configured replacement address, even a
request that matches nothing (a 404 response) carries
`ziti-ctrl-address: https://new.example.com:443`. -/
theorem C7_witness :
    ∃ res,
      wrapHandler "new.example.com:443" none
          (liftHandler (pathPrefixHttpHandler [sampleA] none none))
          freshWriter { urlPath := "/nope" }
        = Except.ok res
      ∧ ("new.example.com:443" ≠ "" →
          headerGet res.headers ZitiCtrlAddressHeader
            = some ("https://" ++ "new.example.com:443"))
      ∧ ("new.example.com:443" = "" →
          headerGet freshWriter.headers ZitiCtrlAddressHeader = none →
          headerGet res.headers ZitiCtrlAddressHeader = none) :=
  (C7_ctrl_address_header "new.example.com:443" none [sampleA] none none freshWriter
    { urlPath := "/nope" }
    (by
      intro h hmem kv hkv
      rw [List.mem_singleton] at hmem
      subst hmem
      exact absurd hkv (List.not_mem_nil kv))
    (by intro dh hdh; cases hdh)
    (by intro f hfb; cases hfb)).1

/-- Claim C8: the panic-containment wrapper never lets a fault
propagate: a non-panicking execution passes through unchanged, a panic
with no hook installed is recovered (logged) leaving the written
response, and a panic with the externally supplied hook installed is
handled by that hook instead. -/
theorem C8_panic_containment (onPanic : Option (Response → Request → String → Response))
    (handler : FHandler) (w : Response) (req : Request) :
    (∃ res, wrapPanicRecovery onPanic handler w req = Except.ok res)
    ∧ (∀ res, handler w req = Except.ok res →
        wrapPanicRecovery onPanic handler w req = Except.ok res)
    ∧ (∀ pv wp, handler w req = Except.error (pv, wp) → onPanic = none →
        wrapPanicRecovery onPanic handler w req = Except.ok wp)
    ∧ (∀ pv wp hook, handler w req = Except.error (pv, wp) → onPanic = some hook →
        wrapPanicRecovery onPanic handler w req = Except.ok (hook wp req pv)) := by
  refine ⟨?_, ?_, ?_, ?_⟩
  · unfold wrapPanicRecovery
    cases hres : handler w req with
    | ok r => exact ⟨r, rfl⟩
    | error pr =>
      obtain ⟨pv, wp⟩ := pr
      cases onPanic with
      | some hook => exact ⟨hook wp req pv, rfl⟩
      | none => exact ⟨wp, rfl⟩
  · intro res hres
    unfold wrapPanicRecovery
    rw [hres]
  · intro pv wp hres hop
    subst hop
    unfold wrapPanicRecovery
    rw [hres]
  · intro pv wp hook hres hop
    subst hop
    unfold wrapPanicRecovery
    rw [hres]

/-- Claim C8 witness: a handler that panics before writing, with no hook
installed, yields the safe (already-written) response instead of a
propagated fault. -/
theorem C8_witness :
    wrapPanicRecovery none panickingHandler freshWriter { urlPath := "/x" }
      = Except.ok freshWriter :=
  (C8_panic_containment none panickingHandler freshWriter { urlPath := "/x" }).2.2.1
    "boom" freshWriter rfl rfl

end Xweb
